import Mathlib

/-!
Verification of the incremental-synchronization core of the PanelAppAusDB
scripts (`scripts/extract_genes_incremental.py` and
`scripts/extract_panel_list.py`).

The embedding models:
- Python `str.strip` and `str.replace('Z', '+00:00')` (ASCII whitespace)
  and `str.isdigit` (the full Unicode code-point table of CPython 3.11);
- `csv.DictReader` rows, whose fields are strings, `None` (the fill value
  of a row shorter than the header, on which `.strip()` raises
  `AttributeError` that the per-row handler turns into a skipped row), or
  absent from the header (`row.get` then returns its default);
- `datetime.fromisoformat` (the pre-3.11 strict grammar used by the code:
  `YYYY-MM-DD[<sep>HH[:MM[:SS[.fff[fff]]]][±HH:MM]]`), producing a
  `PyDateTime` that is offset-aware iff an explicit `±HH:MM` offset is
  present;
- Python `datetime` comparison, which raises `TypeError` when exactly one
  operand is offset-aware and otherwise compares instants (offsets
  subtracted, i.e. both normalized to UTC);
- the per-panel version-marker files `panels/<id>/version_created.txt` as a
  map from panel id to a file state (absent / content / read failure);
- `panel_needs_update`, `update_panel_version_tracking`, `read_panel_data`,
  the planning comprehension and the download/commit loop of `main`, and
  the two pagination loops with their hard page caps.
-/

namespace PanelApp

/-! ### Python string primitives (ASCII model) -/

/-- Characters removed by Python `str.strip()` (ASCII whitespace). -/
def isPySpace (c : Char) : Bool :=
  c = ' ' || c = '\t' || c = '\n' || c = '\r' ||
  c = Char.ofNat 11 || c = Char.ofNat 12

/-- Python `s.strip()`: drop leading and trailing whitespace. -/
def pyStrip (s : String) : String :=
  ⟨((s.data.dropWhile isPySpace).reverse.dropWhile isPySpace).reverse⟩

/-- The code-point ranges on which Python `str.isdigit` is true: the
Unicode characters of `Numeric_Type` Decimal (the `Nd` category) or
Digit (superscripts, circled digits, …), generated from the Unicode
data of CPython 3.11. -/
def pyDigitRanges : List (Nat × Nat) := [
  (48, 57), (178, 179), (185, 185), (1632, 1641), (1776, 1785), (1984, 1993),
  (2406, 2415), (2534, 2543), (2662, 2671), (2790, 2799), (2918, 2927), (3046, 3055),
  (3174, 3183), (3302, 3311), (3430, 3439), (3558, 3567), (3664, 3673), (3792, 3801),
  (3872, 3881), (4160, 4169), (4240, 4249), (4969, 4977), (6112, 6121), (6160, 6169),
  (6470, 6479), (6608, 6618), (6784, 6793), (6800, 6809), (6992, 7001), (7088, 7097),
  (7232, 7241), (7248, 7257), (8304, 8304), (8308, 8313), (8320, 8329), (9312, 9320),
  (9332, 9340), (9352, 9360), (9450, 9450), (9461, 9469), (9471, 9471), (10102, 10110),
  (10112, 10120), (10122, 10130), (42528, 42537), (43216, 43225), (43264, 43273), (43472, 43481),
  (43504, 43513), (43600, 43609), (44016, 44025), (65296, 65305), (66720, 66729), (68160, 68163),
  (68912, 68921), (69216, 69224), (69714, 69722), (69734, 69743), (69872, 69881), (69942, 69951),
  (70096, 70105), (70384, 70393), (70736, 70745), (70864, 70873), (71248, 71257), (71360, 71369),
  (71472, 71481), (71904, 71913), (72016, 72025), (72784, 72793), (73040, 73049), (73120, 73129),
  (92768, 92777), (92864, 92873), (93008, 93017), (120782, 120831), (123200, 123209), (123632, 123641),
  (125264, 125273), (127232, 127242), (130032, 130041)]

/-- A character Python `str.isdigit` accepts: note this is strictly
broader than the ASCII decimal digits (it accepts e.g. `²`, U+00B2). -/
def pyIsDigitChar (c : Char) : Bool :=
  pyDigitRanges.any (fun r => r.1 ≤ c.toNat && c.toNat ≤ r.2)

/-- Python `s.isdigit()`: nonempty and every character of Unicode
`Numeric_Type` Decimal or Digit. -/
def pyIsDigit (s : String) : Bool :=
  !s.data.isEmpty && s.data.all pyIsDigitChar

/-- `s.replace('Z', '+00:00')` on the character list: every occurrence of
the single character `Z` is expanded to `+00:00`. -/
def zReplaceAux : List Char → List Char
  | [] => []
  | c :: rest =>
    if c = 'Z' then '+' :: '0' :: '0' :: ':' :: '0' :: '0' :: zReplaceAux rest
    else c :: zReplaceAux rest

/-- Python `s.replace('Z', '+00:00')`. -/
def zReplace (s : String) : String := ⟨zReplaceAux s.data⟩

/-! ### The `datetime` value model -/

/-- A parsed Python `datetime`. `tzOffsetMinutes = none` models an
offset-naive value; `some k` an offset-aware value with UTC offset `k`
minutes. -/
structure PyDateTime where
  year : Nat
  month : Nat
  day : Nat
  hour : Nat
  minute : Nat
  second : Nat
  microsecond : Nat
  tzOffsetMinutes : Option Int
  deriving DecidableEq, Repr

/-- Leap-year test of the Gregorian calendar. -/
def isLeap (y : Nat) : Bool :=
  y % 4 = 0 && (y % 100 ≠ 0 || y % 400 = 0)

/-- Number of days in a month (Gregorian). -/
def daysInMonth (y m : Nat) : Nat :=
  if m = 2 then (if isLeap y then 29 else 28)
  else if m = 4 || m = 6 || m = 9 || m = 11 then 30
  else 31

/-- Days from 0000-03-01 to the given civil date (valid for `y ≥ 1`,
standard days-from-civil computation; only its strict monotonicity on
valid dates matters for comparisons). -/
def daysFromCivil (y m d : Nat) : Nat :=
  let y2 := if m ≤ 2 then y - 1 else y
  let era := y2 / 400
  let yoe := y2 - era * 400
  let mp := (m + 9) % 12
  let doy := (153 * mp + 2) / 5 + d - 1
  let doe := yoe * 365 + yoe / 4 - yoe / 100 + doy
  era * 146097 + doe

/-- The instant of a `PyDateTime` in microseconds (absence of an offset
contributes zero, i.e. the naive wall-clock value). Python compares two
aware datetimes by these instants; two naive datetimes compare by their
wall-clock fields, which agrees with these instants at offset zero. -/
def utcVal (dt : PyDateTime) : Int :=
  (((daysFromCivil dt.year dt.month dt.day : Int) * 24
      + (dt.hour : Int)) * 3600
    + (dt.minute : Int) * 60 + (dt.second : Int)) * 1000000
  + (dt.microsecond : Int)
  - dt.tzOffsetMinutes.getD 0 * 60000000

/-- Python `a > b` on datetimes: a `TypeError` (modelled as `.error ()`)
when exactly one operand is offset-aware, otherwise the instant
comparison. -/
def pyGT (a b : PyDateTime) : Except Unit Bool :=
  if a.tzOffsetMinutes.isSome = b.tzOffsetMinutes.isSome then
    .ok (decide (utcVal b < utcVal a))
  else .error ()

/-! ### `datetime.fromisoformat` (pre-3.11 grammar) -/

/-- A decimal digit's value, if `c` is one. -/
def digitVal (c : Char) : Option Nat :=
  if c.isDigit then some (c.toNat - 48) else none

/-- Read exactly two digits. -/
def twoDigits : List Char → Option (Nat × List Char)
  | a :: b :: rest => do
    let x ← digitVal a
    let y ← digitVal b
    pure (10 * x + y, rest)
  | _ => none

/-- Read exactly four digits. -/
def fourDigits : List Char → Option (Nat × List Char)
  | a :: b :: c :: d :: rest => do
    let x ← digitVal a
    let y ← digitVal b
    let z ← digitVal c
    let w ← digitVal d
    pure (1000 * x + 100 * y + 10 * z + w, rest)
  | _ => none

/-- Parse `YYYY-MM-DD`, returning the remaining characters. -/
def parseIsoDate (cs : List Char) : Option (Nat × Nat × Nat × List Char) := do
  let (y, cs) ← fourDigits cs
  match cs with
  | '-' :: cs => do
    let (m, cs) ← twoDigits cs
    match cs with
    | '-' :: cs => do
      let (d, cs) ← twoDigits cs
      pure (y, m, d, cs)
    | _ => none
  | _ => none

/-- Parse the fractional-second part: nothing, or `.` followed by exactly
three or exactly six digits (scaled to microseconds). -/
def parseFraction : List Char → Option Nat
  | [] => some 0
  | '.' :: a :: b :: c :: [] => do
    let x ← digitVal a
    let y ← digitVal b
    let z ← digitVal c
    pure ((100 * x + 10 * y + z) * 1000)
  | '.' :: a :: b :: c :: d :: e :: f :: [] => do
    let x ← digitVal a
    let y ← digitVal b
    let z ← digitVal c
    let u ← digitVal d
    let v ← digitVal e
    let w ← digitVal f
    pure (100000 * x + 10000 * y + 1000 * z + 100 * u + 10 * v + w)
  | _ => none

/-- Parse `HH[:MM[:SS[.fff[fff]]]]` (the wall-clock part of the time
string, offset already split off). -/
def parseWallTime (cs : List Char) : Option (Nat × Nat × Nat × Nat) := do
  let (h, cs) ← twoDigits cs
  match cs with
  | [] => pure (h, 0, 0, 0)
  | ':' :: cs => do
    let (mi, cs) ← twoDigits cs
    match cs with
    | [] => pure (h, mi, 0, 0)
    | ':' :: cs => do
      let (s, cs) ← twoDigits cs
      let us ← parseFraction cs
      pure (h, mi, s, us)
    | _ => none
  | _ => none

/-- Parse a UTC offset `±HH:MM` (exactly; the `timezone` constructor
requires the magnitude to stay under 24 hours). -/
def parseOffset (sign : Int) (cs : List Char) : Option Int := do
  let (oh, cs) ← twoDigits cs
  match cs with
  | ':' :: cs => do
    let (om, cs) ← twoDigits cs
    match cs with
    | [] =>
      let total : Int := (oh : Int) * 60 + (om : Int)
      if total < 1440 then pure (sign * total) else none
    | _ => none
  | _ => none

/-- Split the time string at the first `+` or `-` (the offset marker, as
in CPython's `_parse_isoformat_time`). -/
def splitAtSign (cs : List Char) : List Char × Option (Int × List Char) :=
  match cs with
  | [] => ([], none)
  | c :: rest =>
    if c = '+' then ([], some (1, rest))
    else if c = '-' then ([], some (-1, rest))
    else
      let (pre, tz) := splitAtSign rest
      (c :: pre, tz)

/-- Parse the time-of-day portion (after the one-character separator):
wall time plus optional offset. -/
def parseIsoTime (cs : List Char) : Option (Nat × Nat × Nat × Nat × Option Int) := do
  let (wall, tz) := splitAtSign cs
  let (h, mi, s, us) ← parseWallTime wall
  match tz with
  | none => pure (h, mi, s, us, none)
  | some (sign, rest) => do
    let off ← parseOffset sign rest
    pure (h, mi, s, us, some off)

/-- Validity checks performed by the `datetime` constructor. -/
def validDateTime (y m d h mi s us : Nat) : Bool :=
  1 ≤ y && y ≤ 9999 && 1 ≤ m && m ≤ 12 && 1 ≤ d && d ≤ daysInMonth y m &&
  h ≤ 23 && mi ≤ 59 && s ≤ 59 && us ≤ 999999

/-- `datetime.fromisoformat` (pre-3.11): a mandatory `YYYY-MM-DD`, then
optionally one separator character (any character) and a time portion. -/
def fromisoformat (str : String) : Option PyDateTime := do
  let (y, m, d, rest) ← parseIsoDate str.data
  match rest with
  | [] =>
    if validDateTime y m d 0 0 0 0 then
      pure ⟨y, m, d, 0, 0, 0, 0, none⟩
    else none
  | _ :: timePart => do
    let (h, mi, s, us, off) ← parseIsoTime timePart
    if validDateTime y m d h mi s us then
      pure ⟨y, m, d, h, mi, s, us, off⟩
    else none

/-! ### Storage and the tracked operations -/

/-- State of one panel's `panels/<id>/version_created.txt`: absent, present
with raw contents, or unreadable (an I/O or permission failure on open or
read). -/
inductive FileState where
  | absent
  | content (raw : String)
  | readError
  deriving DecidableEq, Repr

/-- The version-marker storage of one data folder, keyed by panel id. -/
def Storage := String → FileState

/-- One catalog record as built by `read_panel_data`. -/
structure Panel where
  id : String
  name : String
  version : String
  version_created : String
  deriving DecidableEq, Repr

/-- `panel_needs_update(panel, data_folder, force)`
(`extract_genes_incremental.py` lines 117–152): `force` short-circuits to
true; a missing marker file is true; an unreadable or empty (after strip)
marker is true; otherwise both timestamps are parsed after
`replace('Z', '+00:00')` and compared, any exception (parse failure or
the naive/aware `TypeError`) being caught and turned into true. -/
def panel_needs_update (panel : Panel) (st : Storage) (force : Bool) : Bool :=
  if force then true
  else
    match st panel.id with
    | .absent => true
    | .readError => true
    | .content raw =>
      let last_version_created := pyStrip raw
      if last_version_created = "" then true
      else
        match fromisoformat (zReplace panel.version_created),
              fromisoformat (zReplace last_version_created) with
        | some current_date, some last_date =>
          match pyGT current_date last_date with
          | .ok b => b
          | .error _ => true
        | _, _ => true

/-- `update_panel_version_tracking(data_folder, panel)` (lines 65–79):
creates the panel directory if needed and overwrites
`version_created.txt` with `panel['version_created']`. -/
def update_panel_version_tracking (st : Storage) (panel : Panel) : Storage :=
  fun i => if i = panel.id then .content panel.version_created else st i

/-- The marker read performed inside `panel_needs_update` (lines 132–138):
`f.read().strip()`; `none` when the file is absent or unreadable. -/
def readStoredMarker (st : Storage) (i : String) : Option String :=
  match st i with
  | .content raw => some (pyStrip raw)
  | _ => none

/-! ### The catalog loader -/

/-- One field of a `csv.DictReader` row: `missing` when the header lacks
the column (`row.get` then returns the getter's default), `null` when the
header has the column but the row is shorter (`DictReader` fills `None`;
calling `.strip()` on it raises `AttributeError`), or the cell string. -/
inductive Field where
  | missing
  | null
  | str (s : String)
  deriving DecidableEq, Repr

/-- One row of `panel_list.tsv` as produced by `csv.DictReader`. -/
structure Row where
  id : Field
  name : Field
  version : Field
  version_created : Field
  deriving DecidableEq, Repr

/-- State of the `panel_list.tsv` file. -/
inductive CatalogFile where
  | absent
  | rows (rs : List Row)
  | readError
  deriving DecidableEq, Repr

/-- `row.get(key, dflt).strip()`: `none` models the `AttributeError`
raised by `None.strip()` on a short-row field. -/
def getStrip (f : Field) (dflt : String) : Option String :=
  match f with
  | .missing => some (pyStrip dflt)
  | .null => none
  | .str s => some (pyStrip s)

/-- One iteration of the row loop (lines 94–108): strip the id (an
`AttributeError` on a `None` id skips the row via the handler of lines
107–108); keep the row only if the id passes
`panel_id and panel_id.isdigit()` (line 97, and `isdigit` is false on the
empty string, so the conjunction reduces to `isdigit`); building the
record (lines 98–103) strips the three remaining fields, and an
`AttributeError` on any `None` among them also skips the row. -/
def processRow (row : Row) : Option Panel :=
  match getStrip row.id "" with
  | none => none
  | some panel_id =>
    if pyIsDigit panel_id then
      match getStrip row.name "Unknown", getStrip row.version "Unknown",
            getStrip row.version_created "" with
      | some nm, some ver, some vc =>
        some { id := panel_id, name := nm, version := ver, version_created := vc }
      | _, _, _ => none
    else none

/-- `read_panel_data(data_folder)` (lines 81–115): empty list when the
file is missing or unreadable; otherwise the surviving rows, in order. -/
def read_panel_data (file : CatalogFile) : List Panel :=
  match file with
  | .absent => []
  | .readError => []
  | .rows rs => rs.filterMap processRow

/-- The id test of line 97: the id field strips without raising and the
result passes `isdigit`. -/
def rowIdOk (row : Row) : Bool :=
  match getStrip row.id "" with
  | none => false
  | some pid => pyIsDigit pid

/-- None of the four accessed fields is a short-row `None` (so no
`.strip()` call of lines 96–103 raises). -/
def rowFieldsOk (row : Row) : Bool :=
  (getStrip row.id "").isSome && (getStrip row.name "Unknown").isSome &&
  (getStrip row.version "Unknown").isSome &&
  (getStrip row.version_created "").isSome

/-- The record built from a row all of whose accessed fields strip to
strings (lines 98–103). -/
def rowToPanel (row : Row) : Panel :=
  { id := (getStrip row.id "").getD ""
    name := (getStrip row.name "Unknown").getD ""
    version := (getStrip row.version "Unknown").getD ""
    version_created := (getStrip row.version_created "").getD "" }

/-- `main` aborts with an error exit when the catalog comes back empty
(lines 249–252). -/
def main_aborts_early (file : CatalogFile) : Bool :=
  (read_panel_data file).isEmpty

/-! ### Planning and the commit loop of `main` -/

/-- The planning comprehension of `main` (lines 254–258). -/
def plan (panels : List Panel) (st : Storage) (force : Bool) : List Panel :=
  panels.filter (fun p => panel_needs_update p st force)

/-- The planning comprehension with the storage state threaded through
each `panel_needs_update` call; the call performs no write, so each step
passes the state along unchanged. -/
def planSt (force : Bool) : List Panel → Storage → List Panel × Storage
  | [], st => ([], st)
  | p :: rest, st =>
    let b := panel_needs_update p st force
    let r := planSt force rest st
    (if b then p :: r.1 else r.1, r.2)

/-- The download/commit loop of `main` (lines 270–278): for each planned
panel, run the external refresh (its success modelled by the oracle
`outcome`); on success write the marker, on failure leave storage
untouched. -/
def runPass (outcome : Panel → Bool) : List Panel → Storage → Storage
  | [], st => st
  | p :: rest, st =>
    let st1 := if outcome p then update_panel_version_tracking st p else st
    runPass outcome rest st1

/-! ### The pagination loops -/

/-- One pagination loop (`download_panel_genes` lines 167–194 and
`download_panels` lines 88–126): starting at `page`, follow `next` links
(`resp` maps a URL to the `next` field of its response, `none` modelling
JSON null) while the link is non-null, breaking once the incremented page
counter exceeds `limit`. Returns the number of pages downloaded. -/
def download_pages (resp : String → Option String) (limit : Nat) :
    Nat → Option String → Nat
  | _, none => 0
  | page, some u =>
    if u = "null" then 0
    else
      let nu := resp u
      if h : page + 1 > limit then 1
      else 1 + download_pages resp limit (page + 1) nu
termination_by page _ => limit + 1 - page
decreasing_by simp_wf; omega

/-- The gene pagination loop of `download_panel_genes`: starts at page 1,
safety cap of 100 pages. -/
def download_panel_genes_pages (resp : String → Option String) (startUrl : String) : Nat :=
  download_pages resp 100 1 (some startUrl)

/-- The panel-list pagination loop of `download_panels`: starts at page 1,
safety cap of 1000 pages. -/
def download_panels_pages (resp : String → Option String) (startUrl : String) : Nat :=
  download_pages resp 1000 1 (some startUrl)

/-! ### Helper lemmas -/

/-- `force=True` short-circuits `panel_needs_update` to true. -/
lemma panel_needs_update_force (p : Panel) (st : Storage) :
    panel_needs_update p st true = true := rfl

/-- Setting a zero UTC offset on an offset-naive value does not change its
instant. -/
lemma utcVal_withUTC (d : PyDateTime) (h : d.tzOffsetMinutes = none) :
    utcVal { d with tzOffsetMinutes := some 0 } = utcVal d := by
  simp [utcVal, h]

/-- `processRow` packaged as a filter condition plus record builder: a
row survives iff its id strips to an `isdigit` string and no accessed
field is a short-row `None`. -/
lemma processRow_eq (r : Row) :
    processRow r
      = if rowIdOk r && rowFieldsOk r then some (rowToPanel r) else none := by
  unfold processRow rowIdOk rowFieldsOk rowToPanel
  cases hi : getStrip r.id "" with
  | none => simp
  | some pid =>
    by_cases hd : pyIsDigit pid = true
    · cases hn : getStrip r.name "Unknown" with
      | none => simp [hd, hn]
      | some nm =>
        cases hv : getStrip r.version "Unknown" with
        | none => simp [hd, hn, hv]
        | some ver =>
          cases hc : getStrip r.version_created "" with
          | none => simp [hd, hn, hv, hc]
          | some vc => simp [hd, hn, hv, hc]
    · simp [hd]

/-- Fuel-indexed bound for the pagination loop. -/
lemma download_pages_le_aux (resp : String → Option String) (limit : Nat) :
    ∀ (k page : Nat) (nu : Option String), limit + 1 - page ≤ k → page ≤ limit →
      download_pages resp limit page nu ≤ limit + 1 - page := by
  intro k
  induction k with
  | zero => intro page nu hk hp; omega
  | succ k ih =>
    intro page nu hk hp
    match nu with
    | none => simp [download_pages]
    | some u =>
      by_cases hu : u = "null"
      · simp [download_pages, hu]
      · by_cases hlim : page + 1 > limit
        · simp only [download_pages]
          rw [if_neg hu, dif_pos hlim]
          omega
        · have hrec := ih (page + 1) (resp u) (by omega) (by omega)
          simp only [download_pages]
          rw [if_neg hu, dif_neg hlim]
          omega

/-- The pagination loop performs at most `limit` iterations when started
at a page number not exceeding the limit. -/
lemma download_pages_le (resp : String → Option String) (limit page : Nat)
    (nu : Option String) (hp : page ≤ limit) :
    download_pages resp limit page nu ≤ limit + 1 - page :=
  download_pages_le_aux resp limit (limit + 1) page nu (by omega) hp

/-! ### C1 -/

/-- C1, counterexample: stored marker `2024-03-01T00:00:00` (offset-naive)
and incoming `2024-02-15T00:00:00Z` both parse, and the incoming instant
is strictly earlier than the stored one under UTC normalization, yet
`panel_needs_update` returns true (Python raises `TypeError` on the
naive/aware comparison and the handler turns it into true), so the check
is not equivalent to "incoming strictly later than stored". -/
theorem c1_mixed_pair_counterexample :
    fromisoformat (zReplace "2024-03-01T00:00:00")
      = some ⟨2024, 3, 1, 0, 0, 0, 0, none⟩
    ∧ fromisoformat (zReplace "2024-02-15T00:00:00Z")
      = some ⟨2024, 2, 15, 0, 0, 0, 0, some 0⟩
    ∧ utcVal ⟨2024, 2, 15, 0, 0, 0, 0, some 0⟩
      < utcVal ⟨2024, 3, 1, 0, 0, 0, 0, none⟩
    ∧ panel_needs_update ⟨"137", "Panel", "1.0", "2024-02-15T00:00:00Z"⟩
        (fun _ => FileState.content "2024-03-01T00:00:00") false = true := by
  refine ⟨by decide, by decide, by decide, by decide⟩

/-- C1, amended: for pairs of parseable timestamps that agree in
offset-awareness (both carry an explicit offset or neither does), the
staleness check returns true iff the incoming timestamp is strictly later
than the stored one after UTC normalization; in particular equal
timestamps yield false. (With mixed awareness the comparison raises and
the check returns true; see the counterexample.) -/
theorem panel_needs_update_iff_later (p : Panel) (st : Storage) (raw : String)
    (cur lastD : PyDateTime)
    (hst : st p.id = FileState.content raw)
    (hne : pyStrip raw ≠ "")
    (hcur : fromisoformat (zReplace p.version_created) = some cur)
    (hlast : fromisoformat (zReplace (pyStrip raw)) = some lastD)
    (haw : cur.tzOffsetMinutes.isSome = lastD.tzOffsetMinutes.isSome) :
    panel_needs_update p st false = true ↔ utcVal lastD < utcVal cur := by
  simp only [panel_needs_update, Bool.false_eq_true, if_false, hst]
  rw [if_neg hne, hcur, hlast]
  simp [pyGT, haw]

/-- C1, witness for the amended theorem: stored `2024-03-01T00:00:00Z`,
incoming `2024-03-02T00:00:00Z` (both offset-aware, incoming later) is
reported stale. -/
theorem panel_needs_update_iff_later_witness :
    panel_needs_update ⟨"137", "Panel", "1.0", "2024-03-02T00:00:00Z"⟩
      (fun _ => FileState.content "2024-03-01T00:00:00Z") false = true :=
  (panel_needs_update_iff_later
      ⟨"137", "Panel", "1.0", "2024-03-02T00:00:00Z"⟩
      (fun _ => FileState.content "2024-03-01T00:00:00Z")
      "2024-03-01T00:00:00Z"
      ⟨2024, 3, 2, 0, 0, 0, 0, some 0⟩
      ⟨2024, 3, 1, 0, 0, 0, 0, some 0⟩
      rfl (by decide) (by decide) (by decide) rfl).mpr (by decide)

/-! ### C2 -/

/-- C2, counterexample: the claim's own example — stored marker
`2024-03-01T00:00:00` (no offset) against incoming
`2024-02-15T00:00:00Z` — yields true (stale), not false: the offset-less
value is not normalized to UTC; instead the naive/aware comparison raises
and the handler returns true. -/
theorem c2_naive_not_utc_counterexample :
    panel_needs_update ⟨"137", "Panel", "1.0", "2024-02-15T00:00:00Z"⟩
      (fun _ => FileState.content "2024-03-01T00:00:00") false = true
    ∧ panel_needs_update ⟨"137", "Panel", "1.0", "2024-02-15T00:00:00Z"⟩
        (fun _ => FileState.absent) false = true := by
  refine ⟨by decide, by decide⟩

/-- C2, amended: an offset-less timestamp is compared as a naive value,
not normalized to UTC against an offset-bearing one: when exactly one of
the two parseable timestamps carries an offset the comparison raises
internally and the check returns true (stale); only when both lack an
offset does the result equal the comparison as if both carried `+00:00`. -/
theorem panel_needs_update_offset_handling (p : Panel) (st : Storage)
    (raw : String) (cur lastD : PyDateTime)
    (hst : st p.id = FileState.content raw)
    (hne : pyStrip raw ≠ "")
    (hcur : fromisoformat (zReplace p.version_created) = some cur)
    (hlast : fromisoformat (zReplace (pyStrip raw)) = some lastD) :
    (cur.tzOffsetMinutes.isSome ≠ lastD.tzOffsetMinutes.isSome →
      panel_needs_update p st false = true)
    ∧ (cur.tzOffsetMinutes = none → lastD.tzOffsetMinutes = none →
      (panel_needs_update p st false = true ↔
        utcVal { lastD with tzOffsetMinutes := some 0 }
          < utcVal { cur with tzOffsetMinutes := some 0 })) := by
  constructor
  · intro haw
    simp only [panel_needs_update, Bool.false_eq_true, if_false, hst]
    rw [if_neg hne, hcur, hlast]
    simp [pyGT, haw]
  · intro hc hl
    rw [utcVal_withUTC lastD hl, utcVal_withUTC cur hc]
    exact panel_needs_update_iff_later p st raw cur lastD hst hne hcur hlast
      (by rw [hc, hl])

/-- C2, witness for the amended theorem: applying the mixed-awareness part
to the stored naive marker `2024-03-01T00:00:00` and incoming aware
`2024-02-15T00:00:00Z` yields stale. -/
theorem panel_needs_update_offset_handling_witness :
    panel_needs_update ⟨"138", "Panel", "1.0", "2024-02-15T00:00:00Z"⟩
      (fun _ => FileState.content "2024-03-01T00:00:00") false = true :=
  (panel_needs_update_offset_handling
      ⟨"138", "Panel", "1.0", "2024-02-15T00:00:00Z"⟩
      (fun _ => FileState.content "2024-03-01T00:00:00")
      "2024-03-01T00:00:00"
      ⟨2024, 2, 15, 0, 0, 0, 0, some 0⟩
      ⟨2024, 3, 1, 0, 0, 0, 0, none⟩
      rfl (by decide) (by decide) (by decide)).1 (by decide)

/-! ### C3 -/

/-- C3, confirmed: the planning comprehension of `main` returns a
subsequence of the catalog (so input order is preserved), contains a
panel iff `force` is set or the non-forced staleness check accepts it,
and with `force=true` returns the whole catalog unchanged. -/
theorem plan_spec (panels : List Panel) (st : Storage) (force : Bool) :
    (plan panels st force).Sublist panels
    ∧ (∀ p, p ∈ plan panels st force ↔
        p ∈ panels ∧ (force = true ∨ panel_needs_update p st false = true))
    ∧ plan panels st true = panels := by
  refine ⟨List.filter_sublist panels, ?_, ?_⟩
  · intro p
    cases force with
    | true => simp [plan, List.mem_filter, panel_needs_update_force]
    | false => simp [plan, List.mem_filter]
  · exact List.filter_eq_self.mpr (fun p _ => panel_needs_update_force p st)

/-! ### C4 -/

/-- C4, confirmed: across the download/commit loop of `main`, an entity
whose refreshes all fail keeps its prior marker state unchanged (so it is
stale again next pass), and in general the final marker of an id is
either its initial state or the `version_created` of some panel of that
id whose refresh succeeded — a marker is written only after a successful
refresh. -/
theorem runPass_marker_spec (outcome : Panel → Bool) (panels : List Panel)
    (st : Storage) (i : String) :
    ((∀ p, p ∈ panels → p.id = i → outcome p = false) →
      runPass outcome panels st i = st i)
    ∧ (runPass outcome panels st i = st i
      ∨ ∃ p, p ∈ panels ∧ p.id = i ∧ outcome p = true
          ∧ runPass outcome panels st i = FileState.content p.version_created) := by
  induction panels generalizing st with
  | nil => exact ⟨fun _ => rfl, Or.inl rfl⟩
  | cons p rest ih =>
    have hstep : runPass outcome (p :: rest) st
        = runPass outcome rest
            (if outcome p then update_panel_version_tracking st p else st) := rfl
    constructor
    · intro h
      rw [hstep]
      by_cases hop : outcome p = true
      · have hpi : p.id ≠ i := by
          intro hid
          exact absurd (h p (List.mem_cons_self p rest) hid)
            (by simp [hop])
        have hupd : update_panel_version_tracking st p i = st i := by
          unfold update_panel_version_tracking
          rw [if_neg (fun hh => hpi hh.symm)]
        rw [if_pos hop,
          (ih (update_panel_version_tracking st p)).1
            (fun q hq hqi => h q (List.mem_cons_of_mem p hq) hqi), hupd]
      · rw [if_neg hop]
        exact (ih st).1 (fun q hq hqi => h q (List.mem_cons_of_mem p hq) hqi)
    · rw [hstep]
      by_cases hop : outcome p = true
      · rw [if_pos hop]
        rcases (ih (update_panel_version_tracking st p)).2 with heq | ⟨q, hq, hqi, hoq, hval⟩
        · by_cases hpi : i = p.id
          · right
            refine ⟨p, List.mem_cons_self p rest, hpi.symm, hop, ?_⟩
            rw [heq]
            unfold update_panel_version_tracking
            rw [if_pos hpi]
          · left
            rw [heq]
            unfold update_panel_version_tracking
            rw [if_neg hpi]
        · exact Or.inr ⟨q, List.mem_cons_of_mem p hq, hqi, hoq, hval⟩
      · rw [if_neg hop]
        rcases (ih st).2 with heq | ⟨q, hq, hqi, hoq, hval⟩
        · exact Or.inl heq
        · exact Or.inr ⟨q, List.mem_cons_of_mem p hq, hqi, hoq, hval⟩

/-- C4, witness: a single panel whose refresh fails leaves its (absent)
marker state untouched. -/
theorem runPass_marker_spec_witness :
    runPass (fun _ => false) [⟨"137", "Panel", "1.0", "2024-03-01T00:00:00Z"⟩]
      (fun _ => FileState.absent) "137"
    = (fun _ => FileState.absent : Storage) "137" :=
  (runPass_marker_spec (fun _ => false)
      [⟨"137", "Panel", "1.0", "2024-03-01T00:00:00Z"⟩]
      (fun _ => FileState.absent) "137").1
    (fun _ _ _ => rfl)

/-! ### C5 -/

/-- C5, counterexample: an I/O failure while reading the stored version
marker is not fatal and is not surfaced: `panel_needs_update` returns the
ordinary verdict true, exactly as for a missing marker, and the planning
pass completes normally, merely scheduling the panel. -/
theorem c5_read_failure_swallowed_counterexample :
    panel_needs_update ⟨"137", "Panel", "1.0", "2024-03-01T00:00:00Z"⟩
      (fun _ => FileState.readError) false = true
    ∧ panel_needs_update ⟨"137", "Panel", "1.0", "2024-03-01T00:00:00Z"⟩
        (fun _ => FileState.absent) false = true
    ∧ (planSt false [⟨"137", "Panel", "1.0", "2024-03-01T00:00:00Z"⟩]
        (fun _ => FileState.readError)).1
      = [⟨"137", "Panel", "1.0", "2024-03-01T00:00:00Z"⟩] := by
  refine ⟨by decide, by decide, by decide⟩

/-- C5, amended: a read failure on the catalog file yields an empty
catalog and `main` aborts with an error exit; but a read failure on a
stored version marker is caught inside `panel_needs_update`, logged as a
warning, and degraded to "stale" (true) — the planning step completes
normally instead of surfacing an error. -/
theorem storage_read_failure_behavior :
    (∀ (p : Panel) (st : Storage), st p.id = FileState.readError →
      panel_needs_update p st false = true)
    ∧ read_panel_data CatalogFile.readError = []
    ∧ main_aborts_early CatalogFile.readError = true := by
  refine ⟨?_, rfl, rfl⟩
  intro p st h
  simp [panel_needs_update, h]

/-- C5, witness for the amended theorem: a concrete read-failure state is
degraded to "stale". -/
theorem storage_read_failure_behavior_witness :
    panel_needs_update ⟨"137", "Panel", "1.0", "2024-03-01T00:00:00Z"⟩
      (fun _ => FileState.readError) false = true :=
  storage_read_failure_behavior.1
    ⟨"137", "Panel", "1.0", "2024-03-01T00:00:00Z"⟩
    (fun _ => FileState.readError) rfl

/-! ### C6 -/

/-- C6, confirmed: whenever the stored marker file is absent, strips to
the empty string, or fails to parse as a timestamp, `panel_needs_update`
returns true, whatever the incoming `version_created` is; no exception
escapes (the embedded function is total). -/
theorem panel_needs_update_fail_open (p : Panel) (st : Storage)
    (h : st p.id = FileState.absent
      ∨ (∃ raw, st p.id = FileState.content raw ∧ pyStrip raw = "")
      ∨ (∃ raw, st p.id = FileState.content raw ∧ pyStrip raw ≠ ""
          ∧ fromisoformat (zReplace (pyStrip raw)) = none)) :
    panel_needs_update p st false = true := by
  rcases h with h | ⟨raw, hst, hempty⟩ | ⟨raw, hst, hne, hparse⟩
  · simp [panel_needs_update, h]
  · simp [panel_needs_update, hst, hempty]
  · simp only [panel_needs_update, Bool.false_eq_true, if_false, hst]
    rw [if_neg hne, hparse]
    cases fromisoformat (zReplace p.version_created) <;> rfl

/-- C6, witness: an all-whitespace marker file is treated as needing
refresh. -/
theorem panel_needs_update_fail_open_witness :
    panel_needs_update ⟨"137", "Panel", "1.0", "2024-03-01T00:00:00Z"⟩
      (fun _ => FileState.content "  ") false = true :=
  panel_needs_update_fail_open
    ⟨"137", "Panel", "1.0", "2024-03-01T00:00:00Z"⟩
    (fun _ => FileState.content "  ")
    (Or.inr (Or.inl ⟨"  ", rfl, by decide⟩))

/-! ### C7 -/

/-- C7, counterexample: writing a marker with surrounding whitespace and
reading it back returns the stripped value, not the written value
exactly (the read of lines 132–138 applies `.strip()`). -/
theorem c7_roundtrip_strip_counterexample :
    readStoredMarker
        (update_panel_version_tracking (fun _ => FileState.content "old")
          ⟨"137", "Panel", "1.0", " 2024-03-01T00:00:00Z "⟩) "137"
      = some "2024-03-01T00:00:00Z"
    ∧ readStoredMarker
        (update_panel_version_tracking (fun _ => FileState.content "old")
          ⟨"137", "Panel", "1.0", " 2024-03-01T00:00:00Z "⟩) "137"
      ≠ some " 2024-03-01T00:00:00Z " := by
  refine ⟨by decide, by decide⟩

/-- C7, amended: write followed immediately by a read of the same entity
id's marker returns the written value with leading and trailing
whitespace stripped — hence exactly the written value whenever it carries
no surrounding whitespace (as all catalog-loader values do) — fully
replacing any prior stored value. -/
theorem write_read_roundtrip (st : Storage) (p : Panel) :
    readStoredMarker (update_panel_version_tracking st p) p.id
      = some (pyStrip p.version_created) := by
  simp [readStoredMarker, update_panel_version_tracking]

/-! ### C8 -/

/-- C8, confirmed: threading the storage state through every
`panel_needs_update` call of the planning comprehension returns the
storage unchanged (the check performs no write and creates no file), and
the computed list is exactly the plan. -/
theorem planSt_pure (force : Bool) (panels : List Panel) (st : Storage) :
    (planSt force panels st).2 = st
    ∧ (planSt force panels st).1 = plan panels st force := by
  induction panels with
  | nil => exact ⟨rfl, rfl⟩
  | cons p rest ih =>
    refine ⟨ih.1, ?_⟩
    show (if panel_needs_update p st force
        then p :: (planSt force rest st).1 else (planSt force rest st).1)
      = plan (p :: rest) st force
    rw [ih.2]
    simp only [plan, List.filter_cons]

/-! ### C9 -/

/-- C9, counterexample: a short row whose id cell is the decimal string
`123` but whose remaining cells are `DictReader`'s `None` fill is skipped
(the `AttributeError` from `None.strip()` lands in the per-row handler of
lines 107–108) even though its stripped id is a non-empty string of
decimal digits; and a row with id `²` (U+00B2, accepted by Python
`isdigit` though not a decimal digit) is included. Both directions of the
claimed iff fail. -/
theorem c9_row_filter_counterexample :
    rowIdOk ⟨Field.str "123", Field.null, Field.null, Field.null⟩ = true
    ∧ read_panel_data (CatalogFile.rows
        [⟨Field.str "123", Field.null, Field.null, Field.null⟩]) = []
    ∧ read_panel_data (CatalogFile.rows
        [⟨Field.str "²", Field.str "Name", Field.str "1.0",
          Field.str "2024-01-01T00:00:00Z"⟩])
      = [⟨"²", "Name", "1.0", "2024-01-01T00:00:00Z"⟩] := by
  refine ⟨by decide, by decide, by decide⟩

/-- C9, amended: the catalog loader returns, in input row order, exactly
the panels built from the rows whose id strips (without raising on a
`None`) to a string accepted by Python `isdigit` — a Unicode test
strictly broader than ASCII decimal digits — and none of whose four
accessed fields is a short-row `None`; every other row is dropped,
whether by the id test of line 97 or by the per-row exception handler of
lines 107–108, and is therefore never planned or committed. -/
theorem read_panel_data_rows (rs : List Row) :
    read_panel_data (CatalogFile.rows rs)
      = (rs.filter (fun r => rowIdOk r && rowFieldsOk r)).map rowToPanel := by
  induction rs with
  | nil => rfl
  | cons r rest ih =>
    simp only [read_panel_data] at ih ⊢
    rw [List.filterMap_cons, List.filter_cons, processRow_eq]
    by_cases h : (rowIdOk r && rowFieldsOk r) = true
    · simp [h, ih]
    · simp [h, ih]

/-! ### C10 -/

/-- C10, confirmed: both pagination loops are bounded regardless of the
`next` links served: the per-panel gene loop downloads at most 100 pages
and the panel-list loop at most 1000. -/
theorem pagination_loops_bounded (respG respP : String → Option String)
    (uG uP : String) :
    download_panel_genes_pages respG uG ≤ 100
    ∧ download_panels_pages respP uP ≤ 1000 := by
  constructor
  · have h := download_pages_le respG 100 1 (some uG) (by omega)
    simpa [download_panel_genes_pages] using h
  · have h := download_pages_le respP 1000 1 (some uP) (by omega)
    simpa [download_panels_pages] using h

end PanelApp
